import Mathlib

/-!
Verification of the browser-side client (`src/frontend/app.js` and its superseding
variant with the directory explorer, `src/unnamed/part_000`).

The development shallowly embeds the two stateful components of the client:

* the session-mode state machine (`mode`, `fullUsed`, the chat transcript, the
  `sendMessage` / `startConversational` / `startFullPromptMode` handlers), and
* the directory explorer (`runsHistory`, `historyIndex`, `cwd`, the rendered file
  view, with `navigateTo` / `goBack` / `goForward` / `goUp` / `refreshFiles` /
  `renderBreadcrumb`).

The JS handlers are `async`; each network round-trip is modelled by passing the
outcome of the awaited fetch (`FetchOutcome` / `ListResponse`) explicitly to the
function that embeds the handler, and `refreshFiles` is split into its dispatch
phase (which captures `runsHistory[historyIndex]`, line 151) and its resolution
phase `applyListing` (lines 153-209, run when the response arrives).  DOM writes
are modelled as state fields (`transcript`, `filesView`, `sendBtnDisabled`,
`thinking`).
-/

/- ===== JS string primitives used by the client ===== -/

/-- JS `String.prototype.trim` on the texts this client handles. -/
def trimWS (s : String) : String :=
  String.mk (((s.toList.dropWhile Char.isWhitespace).reverse.dropWhile Char.isWhitespace).reverse)

/-- JS `str.split('/')`: `"".split('/') = [""]`, `"a//b".split('/') = ["a","","b"]`. -/
def splitSlashList : List Char → List (List Char)
  | [] => [[]]
  | c :: cs =>
    match splitSlashList cs with
    | [] => [[c]]
    | h :: t => if c = '/' then [] :: h :: t else (c :: h) :: t

def splitSlash (s : String) : List String :=
  (splitSlashList s.toList).map String.mk

/-- JS `arr.join('/')`. -/
def joinSlash : List String → String
  | [] => ""
  | [p] => p
  | p :: rest => p ++ "/" ++ joinSlash rest

/- ===== Session-mode state machine (chat side) ===== -/

inductive Role
  | user
  | agent
deriving DecidableEq

structure Msg where
  role : Role
  text : String
deriving DecidableEq

/-- `let mode = null; // 'convo' | 'full'` — `unset` embeds the initial `null`. -/
inductive Mode
  | unset
  | convo
  | full
deriving DecidableEq

structure ChatState where
  mode : Mode
  fullUsed : Bool
  transcript : List Msg
  sendBtnDisabled : Bool
  thinking : Bool
deriving DecidableEq

/-- Page-load state: `mode = null`, `fullUsed = false`, empty chat. -/
def initialChat : ChatState := ⟨Mode.unset, false, [], false, false⟩

/-- `addMsg(role, text)`: append a bubble to the chat transcript. -/
def addMsg (s : ChatState) (r : Role) (t : String) : ChatState :=
  { s with transcript := s.transcript ++ [⟨r, t⟩] }

/-- The chat endpoints the client posts to. -/
inductive Endpoint
  | startConvo
  | chatConvo
  | startFull
  | chatFull
deriving DecidableEq

/-- Outcome of an awaited `fetch` + `res.json()`:
`ok reply` — parsed body with truthy `data.ok` and the given `data.reply` field;
`notOk` — parsed body with falsy/absent `data.ok`;
`netErr` — the fetch or the JSON parse threw (network error / malformed body). -/
inductive FetchOutcome
  | ok (reply : Option String)
  | notOk
  | netErr
deriving DecidableEq

/-- `data.reply || "(no reply)"`: an absent or empty reply field shows the placeholder. -/
def replyOr (reply : Option String) : String :=
  match reply with
  | some t => if t = "" then "(no reply)" else t
  | none => "(no reply)"

/-- Synchronous prefix of `sendMessage()` (part_000 lines 106-138), up to the
point where the handler either returns early, finishes the no-mode branch, or
suspends at `await fetch(...)`:
`rejected` — an early-return guard fired (nothing changed, no `finally`);
`noMode s` — the `else` branch ran (`mode` is neither convo nor full);
`dispatch s ep` — a request to `ep` is now in flight and `s` is the state at the
suspension point (user message appended, send button disabled, spinner on). -/
inductive PreOutcome
  | rejected
  | noMode (s : ChatState)
  | dispatch (s : ChatState) (ep : Endpoint)
deriving DecidableEq

def sendMessagePre (s : ChatState) (rawText : String) : PreOutcome :=
  let text := trimWS rawText
  if text = "" then PreOutcome.rejected
  else if s.mode = Mode.full ∧ s.fullUsed = true then PreOutcome.rejected
  else
    let s1 : ChatState :=
      { s with transcript := s.transcript ++ [⟨Role.user, text⟩],
               sendBtnDisabled := true, thinking := true }
    match s.mode with
    | Mode.convo => PreOutcome.dispatch s1 Endpoint.chatConvo
    | Mode.full =>
        PreOutcome.dispatch s1 (if s.fullUsed then Endpoint.chatFull else Endpoint.startFull)
    | Mode.unset =>
        PreOutcome.noMode (addMsg s1 Role.agent "Pick a mode: Conversational or Full Prompt.")

/-- Resumption of `sendMessage` after the awaited request settles (lines 122-140).
In the full-prompt branch `fullUsed = true` executes only after `res.json()`
succeeded; a thrown fetch/parse lands in the `catch` and skips it. -/
def applyChatOutcome (s : ChatState) (ep : Endpoint) (out : FetchOutcome) : ChatState :=
  match out with
  | FetchOutcome.ok reply =>
      let s1 := addMsg s Role.agent (replyOr reply)
      match ep with
      | Endpoint.startFull => { s1 with fullUsed := true }
      | Endpoint.chatFull => { s1 with fullUsed := true }
      | _ => s1
  | FetchOutcome.notOk =>
      let s1 := addMsg s Role.agent "Agent error."
      match ep with
      | Endpoint.startFull => { s1 with fullUsed := true }
      | Endpoint.chatFull => { s1 with fullUsed := true }
      | _ => s1
  | FetchOutcome.netErr => addMsg s Role.agent "Network error."

/-- The `finally` block (lines 141-145) minus the refresh side effects. -/
def finalize (s : ChatState) : ChatState :=
  { s with sendBtnDisabled := false, thinking := false }

structure SendResult where
  state : ChatState
  request : Option Endpoint
  refreshed : Bool
deriving DecidableEq

/-- Whole `sendMessage()` round: synchronous prefix, then (when a request was
dispatched) the continuation under the given fetch outcome, then the `finally`
block.  `request` records the dispatched endpoint, `refreshed` whether the
`finally` block ran (triggering `refreshFiles()` and `refreshValidation()`). -/
def sendMessage (s : ChatState) (rawText : String) (out : FetchOutcome) : SendResult :=
  match sendMessagePre s rawText with
  | PreOutcome.rejected => ⟨s, none, false⟩
  | PreOutcome.noMode s1 => ⟨finalize s1, none, true⟩
  | PreOutcome.dispatch s1 ep => ⟨finalize (applyChatOutcome s1 ep out), some ep, true⟩

/-- The send-button click path: a disabled button (`sendBtn.disabled = true`,
held while a request is pending) emits no click event, so `sendMessage` is not
invoked; otherwise the click runs `sendMessage`'s synchronous prefix. -/
def clickSend (s : ChatState) (rawText : String) : PreOutcome :=
  if s.sendBtnDisabled then PreOutcome.rejected else sendMessagePre s rawText

/-- The Enter-keydown path (lines 304-310): plain Enter always calls
`sendMessage()`, with no guard of its own. -/
def enterKeydown (s : ChatState) (rawText : String) : PreOutcome :=
  sendMessagePre s rawText

/-- `startConversational()` (lines 74-95): sets `mode = "convo"`, `fullUsed =
false`, appends the status bubble, then awaits `POST /api/start_convo` with the
given outcome; the `finally` block always refreshes files and validation. -/
def startConversational (s : ChatState) (out : FetchOutcome) : ChatState :=
  let s1 := { s with mode := Mode.convo, fullUsed := false }
  let s2 := { addMsg s1 Role.agent "Starting conversational agent…" with thinking := true }
  let s3 :=
    match out with
    | FetchOutcome.ok reply => addMsg s2 Role.agent (replyOr reply)
    | FetchOutcome.notOk => addMsg s2 Role.agent "Failed to start conversational mode."
    | FetchOutcome.netErr => addMsg s2 Role.agent "Network error starting conversational mode."
  { s3 with thinking := false }

/-- `startFullPromptMode()` (lines 97-104): purely local, no request. -/
def startFullPromptMode (s : ChatState) : ChatState :=
  addMsg { s with mode := Mode.full, fullUsed := false } Role.agent
    "Full Prompt mode: send ONE prompt. After that the input will disappear."

/- ===== Directory explorer ===== -/

inductive EntryType
  | file
  | dir
deriving DecidableEq

structure DirEntry where
  name : String
  path : String
  type : EntryType
  size : Option Nat
  mtime : Option Nat
deriving DecidableEq

/-- The rendered content of the `#files` element. -/
inductive FilesView
  | blank
  | emptyFolder
  | rows (entries : List DirEntry)
  | failed (msg : String)
deriving DecidableEq

structure ExplorerState where
  runsHistory : List String
  historyIndex : Nat
  cwd : String
  filesView : FilesView
deriving DecidableEq

/-- Page-load state: `runsHistory = [""]`, `historyIndex = 0`, `cwd = ""`. -/
def initialExplorer : ExplorerState := ⟨[""], 0, "", FilesView.blank⟩

/-- `runsHistory[historyIndex] || ""` — the path `refreshFiles` captures at
dispatch time (line 151), also the `cur` read by `goUp` (line 253). -/
def currentPath (e : ExplorerState) : String :=
  e.runsHistory.getD e.historyIndex ""

/-- Outcome of an awaited `GET /api/runs/list` + `res.json()`:
`ok cwdField entriesField` — parsed body with truthy `data.ok`, carrying the
`data.cwd` field (absent/empty → treated as `""`) and the `data.entries` field
(`none` when not an array); `notOk` — parsed body with falsy `data.ok`;
`netErr msg` — fetch or JSON parse threw, `msg` being `String(err)`. -/
inductive ListResponse
  | ok (cwdField : Option String) (entriesField : Option (List DirEntry))
  | notOk
  | netErr (msg : String)
deriving DecidableEq

/-- Resolution phase of `refreshFiles()` (lines 153-209): run when the listing
response arrives, against whatever the explorer state is at that moment.  The
code performs no staleness comparison between the path it requested and
`runsHistory[historyIndex]` at resolution time.  A falsy `data.ok` throws
`new Error("List failed")`, caught by the same `catch` as a network error. -/
def applyListing (e : ExplorerState) (r : ListResponse) : ExplorerState :=
  match r with
  | ListResponse.ok cwdField entriesField =>
      let newCwd := cwdField.getD ""
      let es := entriesField.getD []
      if es.isEmpty then { e with cwd := newCwd, filesView := FilesView.emptyFolder }
      else { e with cwd := newCwd, filesView := FilesView.rows es }
  | ListResponse.notOk => { e with filesView := FilesView.failed "Error: List failed" }
  | ListResponse.netErr msg => { e with filesView := FilesView.failed msg }

/-- `navigateTo(path)` (lines 230-236): truncate to `historyIndex + 1` entries,
push the path, advance the cursor, and dispatch a fresh listing fetch (whose
resolution is a later `applyListing`). -/
def navigateTo (e : ExplorerState) (path : String) : ExplorerState :=
  { e with runsHistory := e.runsHistory.take (e.historyIndex + 1) ++ [path],
           historyIndex := e.historyIndex + 1 }

/-- `goBack()` (lines 238-244). -/
def goBack (e : ExplorerState) : ExplorerState :=
  if 0 < e.historyIndex then { e with historyIndex := e.historyIndex - 1 } else e

/-- `goForward()` (lines 245-251). -/
def goForward (e : ExplorerState) : ExplorerState :=
  if e.historyIndex < e.runsHistory.length - 1 then { e with historyIndex := e.historyIndex + 1 }
  else e

/-- `goUp()` (lines 252-257). -/
def goUp (e : ExplorerState) : ExplorerState :=
  let cur := currentPath e
  if cur = "" then e
  else navigateTo e (joinSlash ((splitSlash cur).dropLast))

/-- The clickable spans of `renderBreadcrumb` (lines 212-228): the loop body,
skipping empty segments and accumulating `acc = acc ? acc + "/" + p : p`.
Each produced pair is `(data-path attribute, label)`. -/
def crumbAux : String → List String → List (String × String)
  | _, [] => []
  | acc, p :: rest =>
    if p = "" then crumbAux acc rest
    else
      let acc1 := if acc = "" then p else acc ++ "/" ++ p
      (acc1, p) :: crumbAux acc1 rest

/-- `renderBreadcrumb(path)`: the ordered clickable `span[data-path]` elements —
a synthetic root labelled `runs` resolving to `""`, then one span per non-empty
`/`-segment (the `.sep` spans carry no `data-path` and are not clickable). -/
def renderBreadcrumb (path : String) : List (String × String) :=
  ("", "runs") :: crumbAux "" (if path = "" then [] else splitSlash path)

/-- The breadcrumb as the spec words it: split the canonical `cwd` on `/`,
discard empty segments, and render a leading root resolving to `""` followed by
one clickable segment per non-empty segment, segment `i` resolving to the join
of segments `0..i`. -/
def breadcrumbSpecification (cwd : String) : List (String × String) :=
  let segs := (splitSlash cwd).filter (fun s => s != "")
  ("", "runs") ::
    (List.range segs.length).map (fun i => (joinSlash (segs.take (i + 1)), segs.getD i ""))

/- ===== Operation sequences over the explorer ===== -/

inductive NavOp
  | nav (path : String)
  | back
  | fwd
deriving DecidableEq

def applyOp (e : ExplorerState) : NavOp → ExplorerState
  | NavOp.nav p => navigateTo e p
  | NavOp.back => goBack e
  | NavOp.fwd => goForward e

def runOps (e : ExplorerState) (ops : List NavOp) : ExplorerState :=
  ops.foldl applyOp e

/- ===== Helpers for stating claims ===== -/

/-- The endpoint a `sendMessage` invocation dispatched to, if any. -/
def endpointOf : PreOutcome → Option Endpoint
  | PreOutcome.dispatch _ ep => some ep
  | _ => none

/-- The chat state after `sendMessage`'s synchronous prefix (the input state
itself when a guard rejected the call). -/
def preStateOf (s : ChatState) : PreOutcome → ChatState
  | PreOutcome.rejected => s
  | PreOutcome.noMode s1 => s1
  | PreOutcome.dispatch s1 _ => s1

/-- A conversational session whose start round succeeded with reply "hello". -/
def convoReadyState : ChatState :=
  startConversational initialChat (FetchOutcome.ok (some "hello"))

/-- The state at the `await` suspension point of a first conversational submit:
the chat request for "first" is still in flight. -/
def pendingConvoState : ChatState :=
  preStateOf convoReadyState (sendMessagePre convoReadyState "first")

/-- A concrete directory entry used in the stale-listing scenario. -/
def sampleEntry : DirEntry := ⟨"data.csv", "data.csv", EntryType.file, some 12, none⟩

/- ===== Theorems ===== -/

/-- C2 (counterexample): in FullPrompt mode the first submit of "hello" fires a
request to the start-full endpoint; when that request settles with a network
failure the one-shot flag `fullUsed` is still `false` — the claim that it is set
"regardless of outcome" fails — and a further submit is again dispatched, again
to the start-full endpoint. -/
theorem fullPrompt_network_failure_counterexample :
    (sendMessage (startFullPromptMode initialChat) "hello" FetchOutcome.netErr).request
        = some Endpoint.startFull
      ∧ (sendMessage (startFullPromptMode initialChat) "hello" FetchOutcome.netErr).state.fullUsed
        = false
      ∧ endpointOf (sendMessagePre
            (sendMessage (startFullPromptMode initialChat) "hello" FetchOutcome.netErr).state
            "again")
        = some Endpoint.startFull := by
  decide

/-- C2 (amended): in FullPrompt mode the first submit of non-empty text always
dispatches to the start-full endpoint; `fullUsed` is set to true when the
response body is parsed — whether the backend accepted (`ok`) or rejected
(`notOk`) — but when the fetch or parse throws (network failure) the `catch`
path skips the assignment and `fullUsed` stays false, so the one-shot allowance
is not consumed and a later submit dispatches again; once `fullUsed` is true,
every submit in this mode is rejected without any effect. -/
theorem fullPrompt_oneShot_amended (s : ChatState) (text : String) (reply : Option String)
    (hm : s.mode = Mode.full) (hu : s.fullUsed = false) (ht : trimWS text ≠ "") :
    ((sendMessage s text (FetchOutcome.ok reply)).request = some Endpoint.startFull
      ∧ (sendMessage s text (FetchOutcome.ok reply)).state.fullUsed = true)
    ∧ ((sendMessage s text FetchOutcome.notOk).request = some Endpoint.startFull
      ∧ (sendMessage s text FetchOutcome.notOk).state.fullUsed = true)
    ∧ ((sendMessage s text FetchOutcome.netErr).request = some Endpoint.startFull
      ∧ (sendMessage s text FetchOutcome.netErr).state.fullUsed = false)
    ∧ (∀ s2 t2 out, s2.mode = Mode.full → s2.fullUsed = true →
        sendMessage s2 t2 out = ⟨s2, none, false⟩) := by
  refine ⟨?_, ?_, ?_, ?_⟩
  · simp [sendMessage, sendMessagePre, applyChatOutcome, finalize, addMsg, ht, hm, hu]
  · simp [sendMessage, sendMessagePre, applyChatOutcome, finalize, addMsg, ht, hm, hu]
  · simp [sendMessage, sendMessagePre, applyChatOutcome, finalize, addMsg, ht, hm, hu]
  · intro s2 t2 out hm2 hu2
    by_cases h0 : trimWS t2 = "" <;>
      simp [sendMessage, sendMessagePre, h0, hm2, hu2]

/-- Witness for `fullPrompt_oneShot_amended` at the concrete state reached by
clicking "begin full prompt" on a fresh page, submitting "hello" under a network
failure. -/
theorem fullPrompt_oneShot_amended_witness :
    (sendMessage (startFullPromptMode initialChat) "hello" FetchOutcome.netErr).state.fullUsed
      = false :=
  (fullPrompt_oneShot_amended (startFullPromptMode initialChat) "hello" (some "hi")
    (by decide) (by decide) (by decide)).2.2.1.2

/-- C3 (counterexample): `pendingConvoState` is the state at the `await` point
of a first conversational submit — a chat request is in flight (`sendBtnDisabled`
is true).  Calling `sendMessage` there with "second" (as the Enter-keydown
handler does) is not a no-op: it dispatches a second chat request and appends
the user message to the transcript. -/
theorem submit_while_pending_counterexample :
    pendingConvoState.sendBtnDisabled = true
      ∧ endpointOf (sendMessagePre pendingConvoState "second") = some Endpoint.chatConvo
      ∧ (preStateOf pendingConvoState (sendMessagePre pendingConvoState "second")).transcript
          = pendingConvoState.transcript ++ [⟨Role.user, "second"⟩] := by
  decide

/-- C3 (amended): while a chat request is pending the send *button* cannot
resubmit — it is disabled, so its click path is inert — but `sendMessage` itself
has no pending guard, and the Enter-keydown handler invokes it directly: in
conversational mode with non-empty text it appends the user message and
dispatches a new chat request even though one is already in flight. -/
theorem submit_pending_guard_amended (s : ChatState) (text : String)
    (hp : s.sendBtnDisabled = true) (hm : s.mode = Mode.convo) (ht : trimWS text ≠ "") :
    clickSend s text = PreOutcome.rejected
      ∧ enterKeydown s text
          = PreOutcome.dispatch
              { s with transcript := s.transcript ++ [⟨Role.user, trimWS text⟩],
                       sendBtnDisabled := true, thinking := true }
              Endpoint.chatConvo := by
  constructor
  · simp [clickSend, hp]
  · simp [enterKeydown, sendMessagePre, ht, hm]

/-- Witness for `submit_pending_guard_amended` at the concrete pending state of
the C3 counterexample scenario. -/
theorem submit_pending_guard_amended_witness :
    clickSend pendingConvoState "second" = PreOutcome.rejected :=
  (submit_pending_guard_amended pendingConvoState "second"
    (by decide) (by decide) (by decide)).1

/-- C8: when `startConversational`'s start request fails — backend rejection
(`notOk`) or network failure (`netErr`) — the transcript gains the status bubble
followed by exactly one agent-role error message (and nothing else), and `mode`
was already set to `Conversational` before the request fired, so it remains so;
consequently any subsequent submit of non-empty text dispatches to the
conversational chat endpoint. -/
theorem startConversational_failure_recovery (s : ChatState) :
    ((startConversational s FetchOutcome.notOk).mode = Mode.convo
      ∧ (startConversational s FetchOutcome.notOk).transcript
          = s.transcript ++ [⟨Role.agent, "Starting conversational agent…"⟩,
              ⟨Role.agent, "Failed to start conversational mode."⟩])
    ∧ ((startConversational s FetchOutcome.netErr).mode = Mode.convo
      ∧ (startConversational s FetchOutcome.netErr).transcript
          = s.transcript ++ [⟨Role.agent, "Starting conversational agent…"⟩,
              ⟨Role.agent, "Network error starting conversational mode."⟩])
    ∧ (∀ out text, trimWS text ≠ "" →
        endpointOf (sendMessagePre (startConversational s out) text)
          = some Endpoint.chatConvo) := by
  refine ⟨⟨rfl, by simp [startConversational, addMsg]⟩,
          ⟨rfl, by simp [startConversational, addMsg]⟩, ?_⟩
  intro out text ht
  have hmode : (startConversational s out).mode = Mode.convo := by
    cases out <;> rfl
  simp [sendMessagePre, ht, hmode, endpointOf]

/-- Witness for `startConversational_failure_recovery` on a fresh page whose
start request failed with a network error, followed by a submit of "retry". -/
theorem startConversational_failure_recovery_witness :
    endpointOf (sendMessagePre (startConversational initialChat FetchOutcome.netErr) "retry")
      = some Endpoint.chatConvo :=
  (startConversational_failure_recovery initialChat).2.2 FetchOutcome.netErr "retry" (by decide)

/-- C10: submitting non-empty text while no mode has been selected issues no
network request; the transcript gains the (optimistically appended) user message
and a single agent-role message asking the user to pick a mode; the `finally`
block still runs, triggering the explorer-listing and validation-report
refreshes. -/
theorem submit_no_mode_selected (s : ChatState) (text : String) (out : FetchOutcome)
    (hm : s.mode = Mode.unset) (ht : trimWS text ≠ "") :
    (sendMessage s text out).request = none
      ∧ (sendMessage s text out).state.transcript
          = s.transcript ++ [⟨Role.user, trimWS text⟩,
              ⟨Role.agent, "Pick a mode: Conversational or Full Prompt."⟩]
      ∧ (sendMessage s text out).refreshed = true := by
  have hu : ¬(s.mode = Mode.full ∧ s.fullUsed = true) := by
    simp [hm]
  simp [sendMessage, sendMessagePre, ht, hm, hu, addMsg, finalize]

/-- Witness for `submit_no_mode_selected` on a fresh page with text "hello". -/
theorem submit_no_mode_selected_witness :
    (sendMessage initialChat "hello" FetchOutcome.netErr).request = none :=
  (submit_no_mode_selected initialChat "hello" FetchOutcome.netErr (by decide) (by decide)).1

/-- C1 (counterexample): on a fresh page `refreshFiles` dispatches a listing
fetch for the captured path `""`; before it resolves the user navigates to
`"a"`, so the current path `historyStack[historyCursor]` becomes `"a"` and the
in-flight response (for `"" ≠ "a"`) is stale.  When that stale response resolves,
`applyListing` — which performs no staleness comparison — still overwrites both
the displayed listing and the stored `cwd`, contradicting the claim that a stale
response is discarded. -/
theorem staleListing_applied_counterexample :
    currentPath initialExplorer = ""
      ∧ currentPath (navigateTo initialExplorer "a") = "a"
      ∧ (applyListing (navigateTo initialExplorer "a")
            (ListResponse.ok (some "") (some [sampleEntry]))).filesView
          = FilesView.rows [sampleEntry]
      ∧ (applyListing (navigateTo initialExplorer "a")
            (ListResponse.ok (some "") (some [sampleEntry]))).cwd = ""
      ∧ (applyListing (navigateTo initialExplorer "a")
            (ListResponse.ok (some "") (some [sampleEntry]))).cwd
          ≠ currentPath (navigateTo initialExplorer "a") := by
  decide

/-- C1 (amended): `refreshFiles` applies whichever listing response resolves,
unconditionally: for every explorer state — in particular one whose current path
has changed since the request was dispatched — a successful response overwrites
`cwd` with the response's `data.cwd || ""` and replaces the file view according
to the response's entries, while leaving the history stack and cursor untouched.
The settled view reflects the last response to resolve, not necessarily the
current path. -/
theorem applyListing_unconditional (e : ExplorerState) (cwdField : Option String)
    (entriesField : Option (List DirEntry)) :
    (applyListing e (ListResponse.ok cwdField entriesField)).cwd = cwdField.getD ""
      ∧ (applyListing e (ListResponse.ok cwdField entriesField)).filesView
          = (if (entriesField.getD []).isEmpty then FilesView.emptyFolder
             else FilesView.rows (entriesField.getD []))
      ∧ (applyListing e (ListResponse.ok cwdField entriesField)).runsHistory = e.runsHistory
      ∧ (applyListing e (ListResponse.ok cwdField entriesField)).historyIndex = e.historyIndex := by
  by_cases h : (entriesField.getD []).isEmpty <;> simp [applyListing, h]

/-- C9: a failed listing fetch — backend rejection (`data.ok` falsy, which
throws `Error("List failed")`) or a thrown fetch/parse — replaces the file view
with the inline error state and changes nothing else: `runsHistory`,
`historyIndex` and `cwd` are exactly as before the failure, so back/forward
availability is exactly as before. -/
theorem listing_failure_frame (e : ExplorerState) (msg : String) :
    ((applyListing e ListResponse.notOk).filesView = FilesView.failed "Error: List failed"
      ∧ (applyListing e ListResponse.notOk).runsHistory = e.runsHistory
      ∧ (applyListing e ListResponse.notOk).historyIndex = e.historyIndex
      ∧ (applyListing e ListResponse.notOk).cwd = e.cwd)
    ∧ ((applyListing e (ListResponse.netErr msg)).filesView = FilesView.failed msg
      ∧ (applyListing e (ListResponse.netErr msg)).runsHistory = e.runsHistory
      ∧ (applyListing e (ListResponse.netErr msg)).historyIndex = e.historyIndex
      ∧ (applyListing e (ListResponse.netErr msg)).cwd = e.cwd) := by
  simp [applyListing]

/-- C4: from any state with a valid cursor that is not at the end of the
history, `navigateTo P` truncates every entry after the cursor, appends `P`,
and leaves the cursor on the newly appended final entry — the forward history is
gone and the new stack has exactly `historyIndex + 2` entries. -/
theorem navigateTo_truncates_forward (e : ExplorerState) (p : String)
    (h : e.historyIndex + 1 < e.runsHistory.length) :
    (navigateTo e p).runsHistory = e.runsHistory.take (e.historyIndex + 1) ++ [p]
      ∧ (navigateTo e p).historyIndex = e.historyIndex + 1
      ∧ (navigateTo e p).runsHistory.length = e.historyIndex + 2
      ∧ (navigateTo e p).historyIndex = (navigateTo e p).runsHistory.length - 1
      ∧ currentPath (navigateTo e p) = p := by
  have hlen : (e.runsHistory.take (e.historyIndex + 1)).length = e.historyIndex + 1 := by
    simp [List.length_take]; omega
  refine ⟨rfl, rfl, ?_, ?_, ?_⟩
  · simp [navigateTo, hlen]
  · simp [navigateTo, hlen]
  · show (e.runsHistory.take (e.historyIndex + 1) ++ [p]).getD (e.historyIndex + 1) "" = p
    rw [← hlen]
    simp [List.getD_eq_getElem?_getD, List.getElem?_append_right]

/-- Witness for `navigateTo_truncates_forward`: from the state ["", "a"] with
the cursor back at 0, navigating to "b" discards "a" and lands on "b". -/
theorem navigateTo_truncates_forward_witness :
    (navigateTo (goBack (navigateTo initialExplorer "a")) "b").runsHistory = ["", "b"] :=
  (navigateTo_truncates_forward (goBack (navigateTo initialExplorer "a")) "b" (by decide)).1

/-- One step of any navigation operation keeps the cursor strictly inside the
history stack. -/
theorem applyOp_cursor_lt (e : ExplorerState) (op : NavOp)
    (h : e.historyIndex < e.runsHistory.length) :
    (applyOp e op).historyIndex < (applyOp e op).runsHistory.length := by
  cases op with
  | nav p =>
      simp only [applyOp, navigateTo, List.length_append, List.length_take, List.length_cons,
        List.length_nil]
      omega
  | back =>
      by_cases h0 : 0 < e.historyIndex <;> simp [applyOp, goBack, h0] <;> omega
  | fwd =>
      by_cases h0 : e.historyIndex < e.runsHistory.length - 1 <;>
        simp [applyOp, goForward, h0] <;> omega

/-- Every run of navigation operations from a state with a valid cursor ends
with a valid cursor. -/
theorem runOps_cursor_lt (ops : List NavOp) :
    ∀ e : ExplorerState, e.historyIndex < e.runsHistory.length →
      (runOps e ops).historyIndex < (runOps e ops).runsHistory.length := by
  induction ops with
  | nil => intro e h; exact h
  | cons op rest ih =>
      intro e h
      exact ih (applyOp e op) (applyOp_cursor_lt e op h)

/-- C5: along every sequence of `navigateTo` / `goBack` / `goForward` from the
page-load state, the cursor satisfies `historyIndex < runsHistory.length` (hence
stays within `[0, length - 1]`, the lower bound being immediate for a natural
number); `goBack` at cursor 0 and `goForward` at the last index return the state
entirely unchanged. -/
theorem history_cursor_invariant :
    (∀ ops : List NavOp,
        (runOps initialExplorer ops).historyIndex < (runOps initialExplorer ops).runsHistory.length)
    ∧ (∀ e : ExplorerState, e.historyIndex = 0 → goBack e = e)
    ∧ (∀ e : ExplorerState, e.historyIndex = e.runsHistory.length - 1 → goForward e = e) := by
  refine ⟨fun ops => runOps_cursor_lt ops initialExplorer (by decide), ?_, ?_⟩
  · intro e h0
    simp [goBack, h0]
  · intro e hlast
    simp [goForward, hlast]

/-- Witness for `history_cursor_invariant` at the sequence
[navigateTo "a", goBack] and at the page-load state for the two no-op clauses. -/
theorem history_cursor_invariant_witness :
    ((runOps initialExplorer [NavOp.nav "a", NavOp.back]).historyIndex
        < (runOps initialExplorer [NavOp.nav "a", NavOp.back]).runsHistory.length)
      ∧ goBack initialExplorer = initialExplorer
      ∧ goForward initialExplorer = initialExplorer :=
  ⟨history_cursor_invariant.1 [NavOp.nav "a", NavOp.back],
   history_cursor_invariant.2.1 initialExplorer (by decide),
   history_cursor_invariant.2.2 initialExplorer (by decide)⟩

/-- C7: `goUp` leaves the state entirely unchanged when the current path
`runsHistory[historyIndex] || ""` is the root `""`; otherwise it drops the last
`/`-delimited segment of the current path and hands the result to `navigateTo`,
which pushes a new history entry and advances the cursor onto it (rather than
moving the cursor back). -/
theorem goUp_parent (e : ExplorerState) :
    (currentPath e = "" → goUp e = e)
      ∧ (currentPath e ≠ "" →
          (goUp e).runsHistory
              = e.runsHistory.take (e.historyIndex + 1)
                ++ [joinSlash ((splitSlash (currentPath e)).dropLast)]
            ∧ (goUp e).historyIndex = e.historyIndex + 1) := by
  constructor
  · intro h
    simp [goUp, h]
  · intro h
    simp [goUp, h, navigateTo]

/-- Witness for `goUp_parent`: at the root it is a no-op, and from the path
"a/b" it pushes the parent "a" as a new history entry. -/
theorem goUp_parent_witness :
    goUp initialExplorer = initialExplorer
      ∧ (goUp (navigateTo initialExplorer "a/b")).runsHistory = ["", "a/b", "a"]
      ∧ (goUp (navigateTo initialExplorer "a/b")).historyIndex = 2 :=
  ⟨(goUp_parent initialExplorer).1 (by decide),
   ((goUp_parent (navigateTo initialExplorer "a/b")).2 (by decide)).1,
   ((goUp_parent (navigateTo initialExplorer "a/b")).2 (by decide)).2⟩

/-- `join('/')` on a list with at least two elements peels off the head. -/
theorem joinSlash_cons (p : String) (l : List String) (h : l ≠ []) :
    joinSlash (p :: l) = p ++ "/" ++ joinSlash l := by
  cases l with
  | nil => exact absurd rfl h
  | cons q t => rfl

/-- `join('/')` distributes over concatenation of non-empty lists. -/
theorem joinSlash_append (l2 : List String) (h2 : l2 ≠ []) :
    ∀ l1 : List String, l1 ≠ [] → joinSlash (l1 ++ l2) = joinSlash l1 ++ "/" ++ joinSlash l2 := by
  intro l1
  induction l1 with
  | nil => intro h; exact absurd rfl h
  | cons a t ih =>
      intro _
      cases t with
      | nil => simpa using joinSlash_cons a l2 h2
      | cons b t2 =>
          rw [List.cons_append, joinSlash_cons a ((b :: t2) ++ l2) (by simp),
            ih (by simp), joinSlash_cons a (b :: t2) (by simp)]
          simp [String.append_assoc]

/-- Joining a non-empty list of non-empty segments yields a non-empty string. -/
theorem joinSlash_ne_empty (l : List String) (hne : l ≠ []) (hall : ∀ s ∈ l, s ≠ "") :
    joinSlash l ≠ "" := by
  cases l with
  | nil => exact absurd rfl hne
  | cons a t =>
      cases t with
      | nil => simpa [joinSlash] using hall a (by simp)
      | cons b t2 =>
          intro hcontra
          have hlen := congrArg String.length hcontra
          rw [joinSlash_cons a (b :: t2) (by simp)] at hlen
          have hone : ("/" : String).length = 1 := rfl
          simp [String.length_append, hone] at hlen

/-- The breadcrumb loop ignores empty segments, so it may equivalently run on
the filtered segment list. -/
theorem crumbAux_filter (l : List String) :
    ∀ acc, crumbAux acc l = crumbAux acc (l.filter (fun s => s != "")) := by
  induction l with
  | nil => intro acc; rfl
  | cons p rest ih =>
      intro acc
      by_cases hp : p = ""
      · subst hp
        simpa [crumbAux] using ih acc
      · have hb : (p != "") = true := by simp [hp]
        simp [crumbAux, hp, List.filter_cons, hb]
        exact ih _

/-- Running the breadcrumb loop with accumulator `join('/') pre` over non-empty
segments produces, at position `i`, the join of `pre` and segments `0..i`. -/
theorem crumbAux_spec :
    ∀ segs : List String, (∀ s ∈ segs, s ≠ "") →
      ∀ pre : List String, (∀ s ∈ pre, s ≠ "") →
        crumbAux (joinSlash pre) segs
          = (List.range segs.length).map
              (fun i => (joinSlash (pre ++ segs.take (i + 1)), segs.getD i "")) := by
  intro segs
  induction segs with
  | nil => intro _ pre _; simp [crumbAux]
  | cons p rest ih =>
      intro hall pre hpre
      have hp : p ≠ "" := hall p (by simp)
      have hrest : ∀ s ∈ rest, s ≠ "" := fun s hs => hall s (by simp [hs])
      have hpre1 : ∀ s ∈ pre ++ [p], s ≠ "" := by
        intro s hs
        rcases List.mem_append.mp hs with h | h
        · exact hpre s h
        · simp at h; simpa [h] using hp
      have hacc : (if joinSlash pre = "" then p else joinSlash pre ++ "/" ++ p)
          = joinSlash (pre ++ [p]) := by
        by_cases hpe : pre = []
        · subst hpe; simp [joinSlash]
        · rw [if_neg (joinSlash_ne_empty pre hpe hpre),
            joinSlash_append [p] (by simp) pre hpe]
          rfl
      have hstep : crumbAux (joinSlash pre) (p :: rest)
          = (joinSlash (pre ++ [p]), p) :: crumbAux (joinSlash (pre ++ [p])) rest := by
        simp [crumbAux, hp, hacc]
      rw [hstep, ih hrest (pre ++ [p]) hpre1]
      rw [List.length_cons, List.range_succ_eq_map, List.map_cons, List.map_map]
      congr 1
      simp

/-- C6: for every canonical `cwd`, `renderBreadcrumb` produces exactly the trail
the spec describes — a leading root segment resolving to `""` followed by one
clickable segment per non-empty `/`-segment of `cwd`, segment `i` resolving to
the join of segments `0..i` — and in particular `"a/b/c"` yields 4 clickable
segments whose third resolves to `"a/b"`. -/
theorem renderBreadcrumb_correct :
    (∀ cwd, renderBreadcrumb cwd = breadcrumbSpecification cwd)
      ∧ renderBreadcrumb "a/b/c" = [("", "runs"), ("a", "a"), ("a/b", "b"), ("a/b/c", "c")] := by
  constructor
  · intro cwd
    by_cases h : cwd = ""
    · subst h; decide
    · have hall : ∀ s ∈ (splitSlash cwd).filter (fun s => s != ""), s ≠ "" := by
        intro s hs
        have := (List.mem_filter.mp hs).2
        simpa using this
      have hmain := crumbAux_spec ((splitSlash cwd).filter (fun s => s != "")) hall []
        (by simp)
      simp only [renderBreadcrumb, breadcrumbSpecification, if_neg h]
      rw [crumbAux_filter]
      simpa using hmain
  · decide
